import Mathlib

/-!
Verification of the RangeIE Range/Selection library (`src/rangeie.js` and the
two later revisions of the same file kept in `src/unnamed/part_001`).

The library adapts the IE `TextRange` flat character cursor into a
node-and-offset Range/Selection API.  This development shallowly embeds the
pure coordinate arithmetic of the source and the host-action sequences its
methods issue.  Host primitives (`TextRange.moveStart`, `moveEnd`, `collapse`,
`select`, `pasteHTML`, `moveToElementText`, `execCommand`) are represented as
emitted `HostAction` values; DOM membership queries (`_isAncestor`,
`_isBreakout`, `parentElement`) are external collaborators and enter as input
data (an `attached` flag and probe traces), exactly as the specification
scopes them.

Revision naming: `V1` marks the `src/rangeie.js` revision, `V2` the first
(most evolved) revision of `src/unnamed/part_001`, which carries `_checkNode`,
the node-transition-counting `_getTextAbsOffset`, and the `splice` call in
`Selection._removeRange`.  Functions identical across revisions are embedded
once without a suffix.
-/

namespace RangeIE

/-- A JavaScript value as held by the public Range fields.  The fields can
hold `null` (after `_reset`), a DOM node, a number, or `undefined`
(`startOffset` before the first successful `_refresh`, since `_reset` never
assigns it). -/
inductive JSVal where
  | null : JSVal
  | node (id : Nat) : JSVal
  | num (n : Int) : JSVal
  | undef : JSVal
deriving DecidableEq

/-- The five public fields of `RangeIE.Range`.  `JSVal` throughout, because
the source assigns heterogeneous values to them (see `refreshV1`). -/
structure RangeState where
  commonAncestorContainer : JSVal
  startContainer : JSVal
  startOffset : JSVal
  endContainer : JSVal
  endOffset : JSVal
deriving DecidableEq

/-- A DOM node as consumed by the source: `id` stands for reference identity
(`===`), `nodeType` drives `_isTextNode`, `length` is a text node's character
count, `innerTextLength` an element's rendered `innerText.length`,
`nodeValue`/`outerHTML` feed `insertNode`, and `attached` records the result
of the external DOM-membership query `_isAncestor(window.document, node)`
(out of scope per the specification, consumed at its interface). -/
structure DomNode where
  id : Nat
  nodeType : Nat
  length : Nat
  innerTextLength : Nat
  nodeValue : String
  outerHTML : String
  attached : Bool
deriving DecidableEq

/-- `_isTextNode` (all revisions): `node.nodeType === 3`. -/
def isTextNode (node : DomNode) : Bool :=
  node.nodeType == 3

/-- The per-child rendered length the source reads in every scan:
`cnode.length` for a text node, `cnode.innerText.length` otherwise. -/
def nodeTotalLen (node : DomNode) : Nat :=
  if isTextNode node then node.length else node.innerTextLength

/-- `Range._reset` (identical in all three revisions,
`src/rangeie.js` lines 498-505).  The source assigns, in order:
`commonAncestorContainer = null`, `endContainer = null`, `endOffset = 0`,
`startContainer = null`, and then `endOffset = 0` **again** — `startOffset`
is never assigned and keeps whatever value it held. -/
def reset (r : RangeState) : RangeState :=
  let r1 := { r with commonAncestorContainer := JSVal.null }
  let r2 := { r1 with endContainer := JSVal.null }
  let r3 := { r2 with endOffset := JSVal.num 0 }
  let r4 := { r3 with startContainer := JSVal.null }
  let r5 := { r4 with endOffset := JSVal.num 0 }
  r5

/-- `Range._refresh` of `src/rangeie.js` (lines 513-526).  `container` is the
result of `this._getContainer()` — `none` models `null`.  On a result the
source assigns `commonAncestorContainer = container.node`,
`endContainer = container.node`, then `endContainer = container.offset`
(overwriting the node with the numeric offset; `endOffset` is never written),
then `startContainer = container.node`, `startOffset = container.offset`. -/
def refreshV1 (r : RangeState) (container : Option (Nat × Int)) : RangeState :=
  match container with
  | none => reset r
  | some (node, offset) =>
      let r1 := { r with commonAncestorContainer := JSVal.node node }
      let r2 := { r1 with endContainer := JSVal.node node }
      let r3 := { r2 with endContainer := JSVal.num offset }
      let r4 := { r3 with startContainer := JSVal.node node }
      let r5 := { r4 with startOffset := JSVal.num offset }
      r5

/-- `Range._refresh` of the `part_001` revisions (first revision lines
486-499): assigns `commonAncestorContainer`, `startContainer`,
`endContainer` to the node and `startOffset`, `endOffset` to the offset. -/
def refreshV2 (r : RangeState) (container : Option (Nat × Int)) : RangeState :=
  match container with
  | none => reset r
  | some (node, offset) =>
      let r1 := { r with commonAncestorContainer := JSVal.node node }
      let r2 := { r1 with startContainer := JSVal.node node }
      let r3 := { r2 with endContainer := JSVal.node node }
      let r4 := { r3 with startOffset := JSVal.num offset }
      let r5 := { r4 with endOffset := JSVal.num offset }
      r5

/-- A Range state previously populated by a successful refresh, used as the
concrete pre-state of several evaluations below. -/
def positionedState : RangeState :=
  { commonAncestorContainer := JSVal.node 2
    startContainer := JSVal.node 2
    startOffset := JSVal.num 5
    endContainer := JSVal.node 2
    endOffset := JSVal.num 5 }

/-- C2: on a successful resolution `(node 7, offset 4)` the `rangeie.js`
`_refresh` leaves `endContainer` holding the numeric offset (not the node)
and never writes `endOffset`, which keeps its stale value `5`; the
`part_001` revision of the same function sets all five fields as the claim
states.  The first revision contradicts its own intent, evidenced by the
fix in the later revision. -/
theorem c2_refresh_endContainer_slip :
    (refreshV1 positionedState (some (7, 4))).endContainer = JSVal.num 4 ∧
    (refreshV1 positionedState (some (7, 4))).endOffset = JSVal.num 5 ∧
    JSVal.num 4 ≠ JSVal.node 7 ∧
    (refreshV2 positionedState (some (7, 4))).commonAncestorContainer = JSVal.node 7 ∧
    (refreshV2 positionedState (some (7, 4))).startContainer = JSVal.node 7 ∧
    (refreshV2 positionedState (some (7, 4))).endContainer = JSVal.node 7 ∧
    (refreshV2 positionedState (some (7, 4))).startOffset = JSVal.num 4 ∧
    (refreshV2 positionedState (some (7, 4))).endOffset = JSVal.num 4 := by
  refine ⟨rfl, rfl, by decide, rfl, rfl, rfl, rfl, rfl⟩

/-- C5: `_reset` on a Range whose `startOffset` is `5` nulls the three
container fields and zeroes `endOffset`, but `startOffset` stays `5` — the
source assigns `endOffset = 0` twice and never assigns `startOffset`,
contradicting its own doc comment (reset to no data). -/
theorem c5_reset_leaves_startOffset :
    reset positionedState =
      { commonAncestorContainer := JSVal.null
        startContainer := JSVal.null
        startOffset := JSVal.num 5
        endContainer := JSVal.null
        endOffset := JSVal.num 0 } ∧
    JSVal.num 5 ≠ JSVal.num 0 := by
  refine ⟨rfl, by decide⟩

/-- The scan loop of `Range._getTextContainer` (`src/rangeie.js` lines
570-603; identical in the second `part_001` revision, and kept as the dead
`_getTextContainer2` in the first): walk the bounder's children accumulating
`totLen += txtLen`; the first child with `totLen >= absOffset` owns the
offset, with relative offset `txtLen - (totLen - absOffset)`.  Arguments
`totLen` and `idx` carry the running total and child index (both start at
0); the result is `(child index, relative offset)` — child index stands for
the child node itself, since children are identified by position here. -/
def getTextContainerAux : List DomNode → Int → Int → Nat → Option (Nat × Int)
  | [], _, _, _ => none
  | cnode :: rest, absOffset, totLen, idx =>
      let txtLen : Int := nodeTotalLen cnode
      let totLen2 := totLen + txtLen
      if absOffset ≤ totLen2 then
        some (idx, txtLen - (totLen2 - absOffset))
      else
        getTextContainerAux rest absOffset totLen2 (idx + 1)

/-- `Range._getTextContainer` as a function of the child list and the
absolute offset delivered by `_getTextAbsOffset` — the specification's
`resolveNodeAt`. -/
def getTextContainer (childs : List DomNode) (absOffset : Int) : Option (Nat × Int) :=
  getTextContainerAux childs absOffset 0 0

/-- Sum of the rendered lengths of the children before index `k`: the
`totLen` computed by the loop of `_selectTextNode` (`src/rangeie.js` lines
442-457) when the reference node sits at index `k` — the specification's
`spanOf(children[k]).start`. -/
def spanStart : List DomNode → Nat → Int
  | _, 0 => 0
  | [], _ + 1 => 0
  | cnode :: rest, k + 1 => (nodeTotalLen cnode : Int) + spanStart rest k

/-- Rendered length of the child at index `k` (0 beyond the end). -/
def lenAt : List DomNode → Nat → Nat
  | [], _ => 0
  | cnode :: _, 0 => nodeTotalLen cnode
  | _ :: rest, k + 1 => lenAt rest k

/-- `spanOf(children[k]).end`: `endVal = totLen + node.length` in
`_selectTextNode` (`src/rangeie.js` lines 458-464). -/
def spanEnd (childs : List DomNode) (k : Nat) : Int :=
  spanStart childs k + lenAt childs k

theorem spanStart_nonneg (childs : List DomNode) (k : Nat) : 0 ≤ spanStart childs k := by
  induction childs generalizing k with
  | nil => cases k <;> simp [spanStart]
  | cons c rest ih =>
      cases k with
      | zero => simp [spanStart]
      | succ k =>
          have := ih k
          simp only [spanStart]
          positivity

theorem spanStart_succ (childs : List DomNode) (k : Nat) :
    spanStart childs (k + 1) = spanStart childs k + lenAt childs k := by
  induction childs generalizing k with
  | nil => cases k <;> simp [spanStart, lenAt]
  | cons c rest ih =>
      cases k with
      | zero => simp [spanStart, lenAt]
      | succ k => simp only [spanStart, lenAt, ih k]; ring

/-- Where the scan stops: if the target offset `t` lies strictly above the
cumulative total before child `k` and at most the cumulative total through
child `k`, the scan owns it to child `k` with the source's relative-offset
formula. -/
theorem getTextContainerAux_at (childs : List DomNode) (k : Nat) (t base : Int) (idx : Nat)
    (hk : k < childs.length)
    (hlow : base + spanStart childs k < t)
    (hhigh : t ≤ base + spanStart childs k + lenAt childs k) :
    getTextContainerAux childs t base idx =
      some (idx + k, (lenAt childs k : Int) - (base + spanStart childs k + lenAt childs k - t)) := by
  induction childs generalizing k base idx with
  | nil => exact absurd hk (by simp)
  | cons c rest ih =>
      cases k with
      | zero =>
          simp only [spanStart, lenAt, add_zero] at hlow hhigh
          simp only [getTextContainerAux]
          rw [if_pos (by simpa [nodeTotalLen] using hhigh)]
          simp only [spanStart, lenAt, add_zero, Nat.add_zero, Option.some.injEq,
            Prod.mk.injEq]
      | succ k =>
          have hk' : k < rest.length := by simpa using hk
          have hlow' : (base + nodeTotalLen c) + spanStart rest k < t := by
            simp only [spanStart] at hlow; linarith
          have hhigh' : t ≤ (base + nodeTotalLen c) + spanStart rest k + lenAt rest k := by
            simp only [spanStart, lenAt] at hhigh ⊢; linarith
          have hnot : ¬ t ≤ base + (nodeTotalLen c : Int) := by
            have h0 := spanStart_nonneg rest k
            simp only [spanStart] at hlow
            push_neg
            linarith
          simp only [getTextContainerAux]
          rw [if_neg hnot]
          rw [ih k (base + nodeTotalLen c) (idx + 1) hk' hlow' hhigh']
          simp only [spanStart, lenAt]
          congr 2
          · omega
          · ring

/-- C1 counterexample: two text children of length 1.  The flat start offset
of `children[1]` is `spanStart = 1`, but the scan resolves offset 1 to
`(children[0], 1)` — the end of the previous child — not `(children[1], 0)`
as the claim states, because the first child's cumulative total `1` already
satisfies `totLen >= absOffset`. -/
theorem c1_span_roundtrip_counterexample :
    spanStart [⟨10, 3, 1, 0, "a", "a", true⟩, ⟨11, 3, 1, 0, "b", "b", true⟩] 1 = 1 ∧
    getTextContainer [⟨10, 3, 1, 0, "a", "a", true⟩, ⟨11, 3, 1, 0, "b", "b", true⟩] 1 =
      some (0, 1) ∧
    (some ((0 : Nat), (1 : Int)) ≠ some ((1 : Nat), (0 : Int))) := by
  refine ⟨by decide, by decide, by decide⟩

/-- C1 amended: resolving `spanOf(children[0]).start = 0` yields
`(children[0], 0)`; for `k ≥ 1` with a positive-length predecessor,
resolving `spanOf(children[k]).start` yields the same boundary expressed at
the end of the previous child, `(children[k-1], length(children[k-1]))`;
and resolving `spanOf(children[k]).end - 1` yields
`(children[k], length(children[k]) - 1)` — inside `children[k]` — whenever
`children[k]` has length at least 2. -/
theorem c1_span_roundtrip_amended (childs : List DomNode) (k : Nat)
    (hk : k < childs.length) :
    getTextContainer childs (spanStart childs 0) = some (0, 0) ∧
    (∀ _ : 1 ≤ k, 0 < lenAt childs (k - 1) →
      getTextContainer childs (spanStart childs k) =
        some (k - 1, (lenAt childs (k - 1) : Int))) ∧
    (2 ≤ lenAt childs k →
      getTextContainer childs (spanEnd childs k - 1) =
        some (k, (lenAt childs k : Int) - 1)) := by
  refine ⟨?_, ?_, ?_⟩
  · match childs, hk with
    | c :: rest, _ =>
        simp only [spanStart, getTextContainer, getTextContainerAux]
        rw [if_pos (by positivity)]
        simp
  · intro hk1 hprev
    have hk' : k - 1 < childs.length := by omega
    have hspan : spanStart childs k = spanStart childs (k - 1) + lenAt childs (k - 1) := by
      have := spanStart_succ childs (k - 1)
      rw [show k - 1 + 1 = k by omega] at this
      exact this
    have h := getTextContainerAux_at childs (k - 1) (spanStart childs k) 0 0 hk'
      (by rw [hspan]; omega)
      (by rw [hspan]; omega)
    rw [getTextContainer, h]
    congr 2
    · omega
    · omega
  · intro hlen2
    have h := getTextContainerAux_at childs k (spanEnd childs k - 1) 0 0 hk
      (by simp only [spanEnd]; omega)
      (by simp only [spanEnd]; omega)
    rw [getTextContainer, h]
    congr 2
    · omega
    · simp only [spanEnd]
      ring

/-- Witness for `c1_span_roundtrip_amended`: children of lengths
`[2, 3, 4]`, `k = 1`. -/
theorem c1_span_roundtrip_amended_witness :
    (1 < 3 ∧ 1 ≤ 1 ∧ 0 < 2 ∧ 2 ≤ 3) ∧
    (getTextContainer
        [⟨10, 3, 2, 0, "ab", "ab", true⟩, ⟨11, 1, 9, 3, "", "<span>foo</span>", true⟩,
         ⟨12, 3, 4, 0, "baz!", "baz!", true⟩] 0 = some (0, 0) ∧
      getTextContainer
        [⟨10, 3, 2, 0, "ab", "ab", true⟩, ⟨11, 1, 9, 3, "", "<span>foo</span>", true⟩,
         ⟨12, 3, 4, 0, "baz!", "baz!", true⟩] 2 = some (0, 2) ∧
      getTextContainer
        [⟨10, 3, 2, 0, "ab", "ab", true⟩, ⟨11, 1, 9, 3, "", "<span>foo</span>", true⟩,
         ⟨12, 3, 4, 0, "baz!", "baz!", true⟩] 4 = some (1, 2)) := by
  constructor
  · exact ⟨by decide, by decide, by decide, by decide⟩
  · have h := c1_span_roundtrip_amended
      [⟨10, 3, 2, 0, "ab", "ab", true⟩, ⟨11, 1, 9, 3, "", "<span>foo</span>", true⟩,
       ⟨12, 3, 4, 0, "baz!", "baz!", true⟩] 1 (by decide)
    obtain ⟨h1, h2, h3⟩ := h
    refine ⟨?_, ?_, ?_⟩
    · simpa [spanStart] using h1
    · have := h2 (by decide) (by decide)
      simpa [spanStart, lenAt, nodeTotalLen, isTextNode] using this
    · have := h3 (by decide)
      simpa [spanEnd, spanStart, lenAt, nodeTotalLen, isTextNode] using this

/-- C4: the flat offset 8 exceeds the total flattened length 7 of two text
children of lengths 3 and 4, so the scan finds no owning child and returns
`null` (no error path exists in the source) — but on the subsequent
`_refresh`, the `_reset` it triggers leaves `startOffset` at its previous
value 5 instead of the claimed 0, because `_reset` assigns `endOffset = 0`
twice and never writes `startOffset`. -/
theorem c4_resolve_beyond_length :
    getTextContainer [⟨10, 3, 3, 0, "foo", "foo", true⟩, ⟨11, 3, 4, 0, "barz", "barz", true⟩] 8 =
      none ∧
    refreshV1 positionedState none = reset positionedState ∧
    (reset positionedState).startOffset = JSVal.num 5 ∧
    JSVal.num 5 ≠ JSVal.num 0 := by
  refine ⟨by decide, rfl, rfl, by decide⟩

/-! ### The backward character probe (`_getTextAbsOffset`, part_001 first
revision, lines 683-733) -/

/-- Environment data observed by one iteration of the probe loop of
`_getTextAbsOffset`: `m` is `Math.abs(r1.moveStart('character', -1))` (the
reported actual movement), `inBounder` the result of
`_isBreakout(this._bounder, p)` for the collapsed duplicate's parent `p`,
`text` is `r1.text` after the move, `isBr` the result of
`_isNonPrintTextRangeChar(r3)` for the one-character look-ahead range, and
`par` identifies `p` itself.  These are host/DOM reads, which the
specification scopes as external collaborators, so they enter as a trace. -/
structure ProbeStep where
  m : Nat
  inBounder : Bool
  text : String
  isBr : Bool
  par : Nat
deriving DecidableEq

/-- Mutable locals of the `_getTextAbsOffset` loop: `i` (distinct-text
count, the absolute offset), `rt` (previous `r1.text`), `elmCount`
(node-transition counter, starts at `-1`), `relOffset` (starts at `1`),
`prevPar` (previous parent, starts `null`). -/
structure ProbeState where
  i : Nat
  rt : String
  elmCount : Int
  relOffset : Nat
  prevPar : Option Nat
deriving DecidableEq

/-- The ephemeral result object `out` of `_getTextAbsOffset`. -/
structure OffsetFinder where
  nodeIndex : Int
  relOffset : Nat
  absOffset : Nat
deriving DecidableEq

/-- The `while (true)` loop of `_getTextAbsOffset` (part_001 first revision,
lines 694-726), one constructor case per iteration, consuming the probe
trace.  In source order: break (returning the accumulated result) when the
collapsed parent escapes the bounder; increment `i` when the matched text is
non-empty and changed; update `rt`; **break with `i = 0` when the reported
movement `m` is zero (the runaway guard)**; bump `elmCount` on a
node transition (`<br>` look-ahead or parent change), else bump `relOffset`
while still on the first element; remember the parent.  A `none` result
means the finite trace ended with the loop still running. -/
def probeLoop : ProbeState → List ProbeStep → Option OffsetFinder
  | _, [] => none
  | s, step :: rest =>
      if ¬ step.inBounder then
        some ⟨s.elmCount, s.relOffset, s.i⟩
      else
        let i2 := if step.text ≠ "" ∧ s.rt ≠ step.text then s.i + 1 else s.i
        let rt2 := step.text
        if step.m = 0 then
          some ⟨s.elmCount, s.relOffset, 0⟩
        else
          if step.isBr ∨ s.prevPar ≠ some step.par then
            probeLoop ⟨i2, rt2, s.elmCount + 1, s.relOffset, some step.par⟩ rest
          else if s.elmCount ≤ 0 then
            probeLoop ⟨i2, rt2, s.elmCount, s.relOffset + 1, some step.par⟩ rest
          else
            probeLoop ⟨i2, rt2, s.elmCount, s.relOffset, some step.par⟩ rest

/-- `_getTextAbsOffset` with the source's initialization:
`i = 0`, `rt = ''`, `elmCount = -1`, `relOffset = 1`, `prevPar = null`. -/
def getTextAbsOffset (trace : List ProbeStep) : Option OffsetFinder :=
  probeLoop ⟨0, "", -1, 1, none⟩ trace

/-- C3: whenever an iteration of the probe loop is still inside the bounder
but the host reports zero actual movement (`m = 0`), the loop stops at that
iteration — the result does not depend on the rest of the trace — and the
returned absolute offset is the degenerate 0, regardless of the count
accumulated so far. -/
theorem c3_runaway_probe_guard (s : ProbeState) (step : ProbeStep)
    (rest : List ProbeStep) (hin : step.inBounder = true) (hm : step.m = 0) :
    probeLoop s (step :: rest) = some ⟨s.elmCount, s.relOffset, 0⟩ := by
  simp [probeLoop, hin, hm]

/-- Witness for `c3_runaway_probe_guard`: after two productive probe steps,
a stuck step (`m = 0`) ends `_getTextAbsOffset` with absolute offset 0, even
though a longer trace follows. -/
theorem c3_runaway_probe_guard_witness :
    (ProbeStep.mk 0 true "ab" false 1).inBounder = true ∧
    (ProbeStep.mk 0 true "ab" false 1).m = 0 ∧
    getTextAbsOffset
        [⟨1, true, "a", false, 1⟩, ⟨1, true, "ab", false, 1⟩,
         ⟨0, true, "ab", false, 1⟩, ⟨1, true, "abc", false, 1⟩] =
      some ⟨0, 2, 0⟩ := by
  refine ⟨rfl, rfl, ?_⟩
  have step1 : getTextAbsOffset
      [⟨1, true, "a", false, 1⟩, ⟨1, true, "ab", false, 1⟩,
       ⟨0, true, "ab", false, 1⟩, ⟨1, true, "abc", false, 1⟩] =
      probeLoop ⟨2, "ab", 0, 2, some 1⟩
        [⟨0, true, "ab", false, 1⟩, ⟨1, true, "abc", false, 1⟩] := by
    simp [getTextAbsOffset, probeLoop]
  rw [step1,
    c3_runaway_probe_guard ⟨2, "ab", 0, 2, some 1⟩ ⟨0, true, "ab", false, 1⟩
      [⟨1, true, "abc", false, 1⟩] rfl rfl]

/-! ### Selection range removal (`Selection.removeRange` / `_removeRange`) -/

/-- One cell of the `Selection._ranges` JS array.  `delete arr[i]` does not
shorten a JS array; it leaves an `undefined` hole, modelled by `hole`.
An `entry` carries the Range object's identity and whether `detach()` has
been called on it. -/
inductive Slot where
  | entry (id : Nat) (detached : Bool) : Slot
  | hole : Slot
deriving DecidableEq

/-- The loop test `this._ranges[i] === range`: a hole (`undefined`) never
equals a Range object. -/
def slotMatches (s : Slot) (target : Nat) : Bool :=
  match s with
  | Slot.entry id _ => id == target
  | Slot.hole => false

/-- The search of `Selection.removeRange` (all revisions): iterate `i` from
`length - 1` down to `0` and stop at the first index whose slot is the
target Range. -/
def removeScan (ranges : List Slot) (target : Nat) : Option Nat :=
  (List.range ranges.length).reverse.find? fun i =>
    slotMatches (ranges.getD i Slot.hole) target

/-- Mark the entry at `index` detached: `this._ranges[index].detach()`. -/
def detachAt (ranges : List Slot) (index : Nat) : List Slot :=
  match ranges.getD index Slot.hole with
  | Slot.entry id _ => ranges.set index (Slot.entry id true)
  | Slot.hole => ranges

/-- `Selection._removeRange` of `src/rangeie.js` (lines 229-233):
`detach()` the entry, then `delete this._ranges[index]` — which only leaves
a hole; the array keeps its length. -/
def removeRangeAtV1 (ranges : List Slot) (index : Nat) : List Slot :=
  (detachAt ranges index).set index Slot.hole

/-- `Selection._removeRange` of both `part_001` revisions (first revision
lines 174-179): `detach()`, `delete this._ranges[index]` (hole), then
`this._ranges.splice(index, 1)`, which removes the cell. -/
def removeRangeAtV2 (ranges : List Slot) (index : Nat) : List Slot :=
  ((detachAt ranges index).set index Slot.hole).eraseIdx index

/-- `Selection.removeRange` (rangeie.js revision): the downward search plus
`_removeRange` on a hit; returns `found`. -/
def removeRangeV1 (ranges : List Slot) (target : Nat) : Bool × List Slot :=
  match removeScan ranges target with
  | some i => (true, removeRangeAtV1 ranges i)
  | none => (false, ranges)

/-- `Selection.removeRange` (part_001 revisions). -/
def removeRangeV2 (ranges : List Slot) (target : Nat) : Bool × List Slot :=
  match removeScan ranges target with
  | some i => (true, removeRangeAtV2 ranges i)
  | none => (false, ranges)

/-- C6: on a two-range selection, removing an absent Range returns failure
and leaves the set untouched in every revision; removing a present Range
returns success and detaches it in every revision, but the `rangeie.js`
`_removeRange` (plain `delete`, no `splice`) leaves a hole and the range
count stays 2, while the `part_001` revisions splice and the count drops to
1 as the claim states.  The missing `splice` contradicts the later
revisions of the same function. -/
theorem c6_removeRange_hole :
    removeRangeV1 [Slot.entry 0 false, Slot.entry 1 false] 9 =
      (false, [Slot.entry 0 false, Slot.entry 1 false]) ∧
    removeRangeV2 [Slot.entry 0 false, Slot.entry 1 false] 9 =
      (false, [Slot.entry 0 false, Slot.entry 1 false]) ∧
    removeRangeV1 [Slot.entry 0 false, Slot.entry 1 false] 1 =
      (true, [Slot.entry 0 false, Slot.hole]) ∧
    (removeRangeV1 [Slot.entry 0 false, Slot.entry 1 false] 1).2.length = 2 ∧
    removeRangeV2 [Slot.entry 0 false, Slot.entry 1 false] 1 =
      (true, [Slot.entry 0 false]) ∧
    (removeRangeV2 [Slot.entry 0 false, Slot.entry 1 false] 1).2.length = 1 := by
  refine ⟨by decide, by decide, by decide, by decide, by decide, by decide⟩

/-! ### Selection collapse (`collapseToStart` / `collapseToEnd`) -/

/-- Host operations issued by the Range methods, in issue order. -/
inductive HostAction where
  | moveToElementText (target : Nat) : HostAction
  | collapse (toStart : Bool) : HostAction
  | moveStart (amount : Int) : HostAction
  | moveEnd (amount : Int) : HostAction
  | select : HostAction
  | pasteHTML (data : String) : HostAction
deriving DecidableEq

/-- `Selection.collapseToStart` (identical in rangeie.js lines 170-181 and
part_001 lines 116-127): failure and no action on an empty set; otherwise
`ranges[0].collapse(true)` followed by `ranges[0]._range.select()` (the
commit), returning success.  Ranges are identified by id; each issued action
is tagged with the id of the Range whose cursor performs it. -/
def selCollapseToStart (ranges : List Nat) : Bool × List (Nat × HostAction) :=
  if h : 0 < ranges.length then
    let range := ranges.get ⟨0, h⟩
    (true, [(range, HostAction.collapse true), (range, HostAction.select)])
  else
    (false, [])

/-- `Selection.collapseToEnd` of `src/rangeie.js` (lines 190-201):
collapses the last Range and commits it with `range._range.select()`. -/
def selCollapseToEndV1 (ranges : List Nat) : Bool × List (Nat × HostAction) :=
  if h : 0 < ranges.length then
    let range := ranges.get ⟨ranges.length - 1, by omega⟩
    (true, [(range, HostAction.collapse false), (range, HostAction.select)])
  else
    (false, [])

/-- `Selection.collapseToEnd` of both `part_001` revisions (first revision
lines 136-146): collapses the last Range and returns success, but issues no
`select()` — the collapsed Range is never committed as the host's active
selection. -/
def selCollapseToEndV2 (ranges : List Nat) : Bool × List (Nat × HostAction) :=
  if h : 0 < ranges.length then
    let range := ranges.get ⟨ranges.length - 1, by omega⟩
    (true, [(range, HostAction.collapse false)])
  else
    (false, [])

/-- C7 counterexample: on a one-range selection the `part_001`
`collapseToEnd` collapses the Range and returns success, but the issued
action list contains no `select` — the Range is not committed as the host's
active selection, contrary to the claim. -/
theorem c7_collapseToEnd_no_commit_counterexample :
    selCollapseToEndV2 [0] = (true, [(0, HostAction.collapse false)]) ∧
    HostAction.select ∉ (selCollapseToEndV2 [0]).2.map Prod.snd := by
  refine ⟨by decide, by decide⟩

/-- C7 amended: on an empty selection both operations return failure and
issue nothing; on a non-empty selection `collapseToStart` collapses the
first Range, commits it, and returns success; `collapseToEnd` collapses the
last Range and returns success — committing it in the `rangeie.js`
revision, but issuing no commit in the `part_001` revisions. -/
theorem c7_collapse_amended (ranges : List Nat) :
    (ranges = [] →
      selCollapseToStart ranges = (false, []) ∧
      selCollapseToEndV1 ranges = (false, []) ∧
      selCollapseToEndV2 ranges = (false, [])) ∧
    (∀ h : 0 < ranges.length,
      selCollapseToStart ranges =
        (true, [(ranges.get ⟨0, h⟩, HostAction.collapse true),
                (ranges.get ⟨0, h⟩, HostAction.select)]) ∧
      selCollapseToEndV1 ranges =
        (true, [(ranges.get ⟨ranges.length - 1, by omega⟩, HostAction.collapse false),
                (ranges.get ⟨ranges.length - 1, by omega⟩, HostAction.select)]) ∧
      selCollapseToEndV2 ranges =
        (true, [(ranges.get ⟨ranges.length - 1, by omega⟩, HostAction.collapse false)])) := by
  constructor
  · intro hnil
    subst hnil
    refine ⟨rfl, rfl, rfl⟩
  · intro h
    refine ⟨?_, ?_, ?_⟩ <;>
      simp [selCollapseToStart, selCollapseToEndV1, selCollapseToEndV2, h]

/-- Witness for `c7_collapse_amended`: the two-range selection `[4, 9]`. -/
theorem c7_collapse_amended_witness :
    (0 < [4, 9].length) ∧
    selCollapseToStart [4, 9] =
      (true, [(4, HostAction.collapse true), (4, HostAction.select)]) ∧
    selCollapseToEndV1 [4, 9] =
      (true, [(9, HostAction.collapse false), (9, HostAction.select)]) ∧
    selCollapseToEndV2 [4, 9] = (true, [(9, HostAction.collapse false)]) := by
  refine ⟨by decide, ?_⟩
  have h := (c7_collapse_amended [4, 9]).2 (by decide)
  simpa using h

/-! ### Positioning (`_selectNode`, `selectNode`, `setEnd`) — rangeie.js
revision -/

/-- The search loop of `_selectTextNode` (`src/rangeie.js` lines 442-457):
walk the bounder's children; stop at the child identical (`===`) to the
reference node, returning the running total `totLen` of the rendered lengths
of the children before it, together with that child; `none` when the
reference node is not among the children. -/
def selectTextNodeScan : List DomNode → Nat → Int → Option (Int × DomNode)
  | [], _, _ => none
  | cnode :: rest, refId, totLen =>
      if cnode.id == refId then
        some (totLen, cnode)
      else
        selectTextNodeScan rest refId (totLen + (nodeTotalLen cnode : Int))

/-- `Range._selectTextNode` of `src/rangeie.js` (lines 435-476), as the pair
(status, issued host actions).  `bounder` is the id of the bound container.
On a hit: `moveToElementText(bounder)`, `collapse(true)`,
`moveStart('character', totLen)`, `moveEnd('character', endVal)` with
`endVal = totLen + node.length` (or `innerText.length`), returning `true`.
On a miss: both boundaries are moved by `-10000000` and the result is
`false`. -/
def selectTextNodeV1 (bounder : Nat) (childs : List DomNode) (referenceNode : DomNode) :
    Bool × List HostAction :=
  match selectTextNodeScan childs referenceNode.id 0 with
  | some (totLen, node) =>
      let endVal := totLen + (nodeTotalLen node : Int)
      (true,
        [HostAction.moveToElementText bounder, HostAction.collapse true,
         HostAction.moveStart totLen, HostAction.moveEnd endVal])
  | none =>
      (false, [HostAction.moveStart (-10000000), HostAction.moveEnd (-10000000)])

/-- `Range._selectElmNode` (identical in all revisions, `src/rangeie.js`
lines 485-490): `moveToElementText(referenceNode)` then narrow by one
character on each side; always returns `true`. -/
def selectElmNode (referenceNode : DomNode) : Bool × List HostAction :=
  (true,
    [HostAction.moveToElementText referenceNode.id, HostAction.moveStart (-1),
     HostAction.moveEnd 1])

/-- `Range._selectNode` of `src/rangeie.js` (lines 419-426): dispatch on
`_isTextNode`. -/
def selectNodeHelperV1 (bounder : Nat) (childs : List DomNode) (referenceNode : DomNode) :
    Bool × List HostAction :=
  if isTextNode referenceNode then
    selectTextNodeV1 bounder childs referenceNode
  else
    selectElmNode referenceNode

/-- `Range.selectNode` of `src/rangeie.js` (lines 262-273): run
`_selectNode`; on success commit (`this._range.select()`) and `_refresh`
(whose resolver read is the `container` parameter, as in `refreshV1`);
on failure `_reset`.  Either way the method returns `true`. -/
def selectNodeV1 (bounder : Nat) (childs : List DomNode) (container : Option (Nat × Int))
    (r : RangeState) (referenceNode : DomNode) : Bool × List HostAction × RangeState :=
  let st := selectNodeHelperV1 bounder childs referenceNode
  if st.1 then
    (true, st.2 ++ [HostAction.select], refreshV1 r container)
  else
    (true, st.2, reset r)

/-- `Range.setEnd` of `src/rangeie.js` (lines 326-348).  When
`commonAncestorContainer` is `null` the anchor step `_selectNode(endNode)`
runs first; on anchor success the end boundary is moved by
`offset = -(txtLen - endOffset)` where `txtLen` is `endNode.length` for a
text node and `endNode.innerText.length` otherwise, then the range is
committed and refreshed; on anchor failure the Range resets.  Returns the
anchor status `st`. -/
def setEndV1 (bounder : Nat) (childs : List DomNode) (container : Option (Nat × Int))
    (r : RangeState) (endNode : DomNode) (endOffset : Int) :
    Bool × List HostAction × RangeState :=
  let anchor :=
    if r.commonAncestorContainer = JSVal.null then
      selectNodeHelperV1 bounder childs endNode
    else
      (true, [])
  if anchor.1 then
    let txtLen : Int := if isTextNode endNode then endNode.length else endNode.innerTextLength
    let offset := -(txtLen - endOffset)
    (anchor.1, anchor.2 ++ [HostAction.moveEnd offset, HostAction.select],
      refreshV1 r container)
  else
    (anchor.1, anchor.2, reset r)

/-- C8: whenever `setEnd`'s anchor step succeeds, the host actions it issues
are exactly the anchor's own actions followed by a single end-boundary move
of `endOffset - totalLength(endNode)` characters and the commit, where
`totalLength` is `nodeTotalLen` — the node's text length for a text node and
its rendered `innerText` length for an element. -/
theorem c8_setEnd_delta (bounder : Nat) (childs : List DomNode)
    (container : Option (Nat × Int)) (r : RangeState) (endNode : DomNode) (endOffset : Int)
    (hst : (setEndV1 bounder childs container r endNode endOffset).1 = true) :
    (setEndV1 bounder childs container r endNode endOffset).2.1 =
      (if r.commonAncestorContainer = JSVal.null then
          (selectNodeHelperV1 bounder childs endNode).2
        else []) ++
      [HostAction.moveEnd (endOffset - (nodeTotalLen endNode : Int)), HostAction.select] := by
  by_cases hanchor :
      (if r.commonAncestorContainer = JSVal.null then
          selectNodeHelperV1 bounder childs endNode
        else (true, [])).1 = true
  · simp only [setEndV1]
    rw [if_pos hanchor]
    by_cases hnull : r.commonAncestorContainer = JSVal.null <;>
      simp [hnull, nodeTotalLen]
  · exfalso
    simp only [setEndV1] at hst
    rw [if_neg hanchor] at hst
    simp only at hst
    exact hanchor hst

/-- Witness for `c8_setEnd_delta`: a Range already positioned
(`commonAncestorContainer` non-null, so the anchor step trivially succeeds)
with a text node of length 11 and requested end offset 6 — the issued move
is `moveEnd (6 - 11) = moveEnd (-5)`. -/
theorem c8_setEnd_delta_witness :
    (setEndV1 1 [] none positionedState ⟨20, 3, 11, 0, "hello world", "hello world", true⟩
        6).1 = true ∧
    (setEndV1 1 [] none positionedState ⟨20, 3, 11, 0, "hello world", "hello world", true⟩
        6).2.1 = [HostAction.moveEnd (-5), HostAction.select] := by
  refine ⟨by decide, ?_⟩
  have h := c8_setEnd_delta 1 [] none positionedState
    ⟨20, 3, 11, 0, "hello world", "hello world", true⟩ 6 (by decide)
  rw [h]
  simp [positionedState, nodeTotalLen, isTextNode]

/-- C10: `Range.selectNode` of `src/rangeie.js` returns `true`
unconditionally — on the success branch and on the branch where the text
reference node is not found among the bounder's children, in which case
`_selectTextNode` has returned `false`, no commit (`select`) is issued, and
the Range resets. -/
theorem c10_selectNode_always_true (bounder : Nat) (childs : List DomNode)
    (container : Option (Nat × Int)) (r : RangeState) (referenceNode : DomNode) :
    (selectNodeV1 bounder childs container r referenceNode).1 = true ∧
    (isTextNode referenceNode = true →
      selectTextNodeScan childs referenceNode.id 0 = none →
      (selectNodeV1 bounder childs container r referenceNode).2.2 = reset r ∧
      HostAction.select ∉ (selectNodeV1 bounder childs container r referenceNode).2.1) := by
  constructor
  · simp only [selectNodeV1]
    split <;> rfl
  · intro htext hmiss
    have hhelper : selectNodeHelperV1 bounder childs referenceNode =
        (false, [HostAction.moveStart (-10000000), HostAction.moveEnd (-10000000)]) := by
      simp [selectNodeHelperV1, htext, selectTextNodeV1, hmiss]
    constructor
    · simp [selectNodeV1, hhelper]
    · simp [selectNodeV1, hhelper]

/-- Witness for `c10_selectNode_always_true`: a text node (id 99) absent
from the single-child bounder; `selectNode` still reports `true` while the
Range resets. -/
theorem c10_selectNode_always_true_witness :
    (isTextNode ⟨99, 3, 4, 0, "zzzz", "zzzz", true⟩ = true ∧
      selectTextNodeScan [⟨10, 3, 3, 0, "foo", "foo", true⟩] 99 0 = none) ∧
    ((selectNodeV1 1 [⟨10, 3, 3, 0, "foo", "foo", true⟩] none positionedState
        ⟨99, 3, 4, 0, "zzzz", "zzzz", true⟩).1 = true ∧
      (selectNodeV1 1 [⟨10, 3, 3, 0, "foo", "foo", true⟩] none positionedState
          ⟨99, 3, 4, 0, "zzzz", "zzzz", true⟩).2.2 = reset positionedState) := by
  refine ⟨⟨by decide, by decide⟩, ?_⟩
  have h := c10_selectNode_always_true 1 [⟨10, 3, 3, 0, "foo", "foo", true⟩] none
    positionedState ⟨99, 3, 4, 0, "zzzz", "zzzz", true⟩
  exact ⟨h.1, (h.2 (by decide) (by decide)).1⟩

/-! ### Node validation and the part_001 first-revision operations -/

/-- `Range._getCallerString` (part_001 first revision, lines 860-872) in its
fallback form `funcName + '(...)'`; the non-fallback branch extracts a
source-text line matching `funcName` from the JS caller, which has no
counterpart in a pure embedding — either way the produced string names the
originating call. -/
def getCallerString (funcName : String) : String :=
  funcName ++ "(...)"

/-- The error message built by `Range._checkNode` (part_001 first revision,
lines 840-845). -/
def checkNodeErrMsg (funcName : String) : String :=
  "RangeIE: When inserting or selecting nodes, the node " ++
    "must already exist in the document. It must have been " ++
    "previously added to the DOM using appendChild, " ++
    "insertBefore or other such DOM methods. Error " ++
    "occurred at: " ++ getCallerString funcName

/-- `Range._checkNode` (part_001 first revision, lines 835-851): throw a
descriptive error naming the originating call when
`_isAncestor(window.document, referenceNode)` fails (the `attached` field),
otherwise return `true`.  The throw is modelled by `Except.error`. -/
def checkNode (referenceNode : DomNode) (funcName : String) : Except String Bool :=
  if ¬ referenceNode.attached then
    Except.error (checkNodeErrMsg funcName)
  else
    Except.ok true

/-- The prefix scan of `_selectTextNode` (part_001 first revision, lines
406-418): total rendered length of the children before the reference node
(total of all children when it is absent — the loop simply runs out). -/
def totLenBefore : List DomNode → Nat → Nat
  | [], _ => 0
  | cnode :: rest, refId =>
      if cnode.id == refId then 0
      else nodeTotalLen cnode + totLenBefore rest refId

/-- The `while (true)` probe of `_selectTextNode` (part_001 first revision,
lines 422-442), counting the `moveEnd('character', +1)` calls it makes.
Each trace element is `(r1.text after the move, |reported movement|)`; the
loop state at the top of an iteration is the current matched text and the
`found` flag (`m` is `undefined` on the first iteration, so the `m === 0`
break cannot fire before the first move and is checked here where the move
result is consumed).  The iteration continues past the text comparison
exactly when `text == data` or `found` is still false; an exhausted trace
stands for the host reporting zero movement at the end of content, which
stops the loop one move later. -/
def selectTextNodeV2Loop (data : String) : List (String × Nat) → Bool → String → Nat
  | trace, found, curText =>
      if curText = data ∨ found = false then
        match trace with
        | [] => 1
        | (t, mv) :: rest =>
            if mv = 0 then 1
            else 1 + selectTextNodeV2Loop data rest (found || curText == data) t
      else 0

/-- `Range._selectTextNode` (part_001 first revision, lines 399-449):
compute `totLen` before the reference node, take
`data = bounder.innerText.substr(0, totLen)`, anchor at the bounder
(`moveToElementText`, `collapse(true)`), run the probe loop, then
`moveEnd(-1)`, `collapse(false)`, `moveEnd(referenceNode.length)`.  This
revision always returns `true`. -/
def selectTextNodeV2 (bounder : Nat) (childs : List DomNode) (bounderInnerText : String)
    (selTrace : List (String × Nat)) (referenceNode : DomNode) : Bool × List HostAction :=
  let totLen := totLenBefore childs referenceNode.id
  let data := bounderInnerText.take totLen
  let moves := selectTextNodeV2Loop data selTrace false ""
  (true,
    [HostAction.moveToElementText bounder, HostAction.collapse true] ++
      List.replicate moves (HostAction.moveEnd 1) ++
      [HostAction.moveEnd (-1), HostAction.collapse false,
       HostAction.moveEnd (referenceNode.length : Int)])

/-- `Range._selectNode` (part_001 first revision, lines 383-390). -/
def selectNodeHelperV2 (bounder : Nat) (childs : List DomNode) (bounderInnerText : String)
    (selTrace : List (String × Nat)) (referenceNode : DomNode) : Bool × List HostAction :=
  if isTextNode referenceNode then
    selectTextNodeV2 bounder childs bounderInnerText selTrace referenceNode
  else
    selectElmNode referenceNode

/-- `Range.selectNode` (part_001 first revision, lines 212-224):
`_checkNode(referenceNode, 'selectNode')` first — before any host
primitive — then `_selectNode`, commit and refresh on success, reset on
failure, returning `true`. -/
def selectNodeV2 (bounder : Nat) (childs : List DomNode) (bounderInnerText : String)
    (selTrace : List (String × Nat)) (container : Option (Nat × Int)) (r : RangeState)
    (referenceNode : DomNode) : Except String (Bool × List HostAction × RangeState) :=
  match checkNode referenceNode "selectNode" with
  | Except.error e => Except.error e
  | Except.ok _ =>
      let st := selectNodeHelperV2 bounder childs bounderInnerText selTrace referenceNode
      if st.1 then
        Except.ok (true, st.2 ++ [HostAction.select], refreshV2 r container)
      else
        Except.ok (true, st.2, reset r)

/-- `Range.selectNodeContents` (part_001 first revision, lines 236-242):
`_checkNode` first, then `moveToElementText(referenceNode)`, commit,
refresh. -/
def selectNodeContentsV2 (container : Option (Nat × Int)) (r : RangeState)
    (referenceNode : DomNode) : Except String (Bool × List HostAction × RangeState) :=
  match checkNode referenceNode "selectNodeContents" with
  | Except.error e => Except.error e
  | Except.ok _ =>
      Except.ok (true,
        [HostAction.moveToElementText referenceNode.id, HostAction.select],
        refreshV2 r container)

/-- `Range.setStart` (part_001 first revision, lines 254-270): `_checkNode`
first; anchor through `_selectNode` when the Range is Empty; on anchor
success `moveStart('character', startOffset)`, commit, refresh; on failure
reset; returns the anchor status. -/
def setStartV2 (bounder : Nat) (childs : List DomNode) (bounderInnerText : String)
    (selTrace : List (String × Nat)) (container : Option (Nat × Int)) (r : RangeState)
    (startNode : DomNode) (startOffset : Int) :
    Except String (Bool × List HostAction × RangeState) :=
  match checkNode startNode "setStart" with
  | Except.error e => Except.error e
  | Except.ok _ =>
      let st :=
        if r.commonAncestorContainer = JSVal.null then
          selectNodeHelperV2 bounder childs bounderInnerText selTrace startNode
        else
          (true, [])
      if st.1 then
        Except.ok (st.1,
          st.2 ++ [HostAction.moveStart startOffset, HostAction.select],
          refreshV2 r container)
      else
        Except.ok (st.1, st.2, reset r)

/-- `Range.setEnd` (part_001 first revision, lines 282-305): `_checkNode`
first; then the same anchor-and-move logic as `setEndV1`, against the
part_001 `_selectNode` and `_refresh`. -/
def setEndV2 (bounder : Nat) (childs : List DomNode) (bounderInnerText : String)
    (selTrace : List (String × Nat)) (container : Option (Nat × Int)) (r : RangeState)
    (endNode : DomNode) (endOffset : Int) :
    Except String (Bool × List HostAction × RangeState) :=
  match checkNode endNode "setEnd" with
  | Except.error e => Except.error e
  | Except.ok _ =>
      let st :=
        if r.commonAncestorContainer = JSVal.null then
          selectNodeHelperV2 bounder childs bounderInnerText selTrace endNode
        else
          (true, [])
      if st.1 then
        let txtLen : Int :=
          if isTextNode endNode then endNode.length else endNode.innerTextLength
        let offset := -(txtLen - endOffset)
        Except.ok (st.1,
          st.2 ++ [HostAction.moveEnd offset, HostAction.select],
          refreshV2 r container)
      else
        Except.ok (st.1, st.2, reset r)

/-- `Range.insertNode` (part_001 first revision, lines 327-339): **no
`_checkNode` call**.  `data` is the reference node's `nodeValue` (text node)
or `outerHTML`; then `this.collapse(true)` (a host collapse plus a
`_refresh`, whose resolver read is `c1`), `pasteHTML(data)`, a second
`_refresh` (resolver read `c2`), returning `commonAncestorContainer`. -/
def insertNodeV2 (c1 c2 : Option (Nat × Int)) (r : RangeState) (referenceNode : DomNode) :
    List HostAction × RangeState × JSVal :=
  let data := if isTextNode referenceNode then referenceNode.nodeValue
              else referenceNode.outerHTML
  let r1 := refreshV2 r c1
  let r2 := refreshV2 r1 c2
  ([HostAction.collapse true, HostAction.pasteHTML data], r2, r2.commonAncestorContainer)

/-- C9 counterexample: `insertNode` on a detached element raises no error at
all — it proceeds straight to the host primitives, issuing the cursor
collapse and `pasteHTML` with the node's markup, contrary to the claim that
every positioning operation taking an external node fails fast on a
detached node. -/
theorem c9_insertNode_unchecked_counterexample :
    (⟨30, 1, 0, 1, "x", "<b>x</b>", false⟩ : DomNode).attached = false ∧
    (insertNodeV2 none none positionedState ⟨30, 1, 0, 1, "x", "<b>x</b>", false⟩).1 =
      [HostAction.collapse true, HostAction.pasteHTML "<b>x</b>"] := by
  refine ⟨rfl, rfl⟩

/-- C9 amended: of the positioning operations taking an external node,
`selectNode`, `selectNodeContents`, `setStart` and `setEnd` validate the
node first and, when it is detached, stop with the descriptive error naming
the originating call before issuing any host action or touching the Range's
fields (the error result carries no action list and no successor state);
`insertNode` performs no such validation and proceeds to the host
primitives. -/
theorem c9_checkNode_amended (bounder : Nat) (childs : List DomNode)
    (bounderInnerText : String) (selTrace : List (String × Nat))
    (container : Option (Nat × Int)) (r : RangeState) (node : DomNode)
    (off1 off2 : Int) (hdet : node.attached = false) :
    selectNodeV2 bounder childs bounderInnerText selTrace container r node =
      Except.error (checkNodeErrMsg "selectNode") ∧
    selectNodeContentsV2 container r node =
      Except.error (checkNodeErrMsg "selectNodeContents") ∧
    setStartV2 bounder childs bounderInnerText selTrace container r node off1 =
      Except.error (checkNodeErrMsg "setStart") ∧
    setEndV2 bounder childs bounderInnerText selTrace container r node off2 =
      Except.error (checkNodeErrMsg "setEnd") := by
  have hc : ∀ f, checkNode node f = Except.error (checkNodeErrMsg f) := fun f => by
    simp [checkNode, hdet]
  refine ⟨?_, ?_, ?_, ?_⟩
  · simp [selectNodeV2, hc]
  · simp [selectNodeContentsV2, hc]
  · simp [setStartV2, hc]
  · simp [setEndV2, hc]

/-- Witness for `c9_checkNode_amended`: the detached text node id 31. -/
theorem c9_checkNode_amended_witness :
    (⟨31, 3, 2, 0, "hi", "hi", false⟩ : DomNode).attached = false ∧
    (selectNodeV2 1 [] "" [] none positionedState ⟨31, 3, 2, 0, "hi", "hi", false⟩ =
        Except.error (checkNodeErrMsg "selectNode") ∧
      selectNodeContentsV2 none positionedState ⟨31, 3, 2, 0, "hi", "hi", false⟩ =
        Except.error (checkNodeErrMsg "selectNodeContents") ∧
      setStartV2 1 [] "" [] none positionedState ⟨31, 3, 2, 0, "hi", "hi", false⟩ 0 =
        Except.error (checkNodeErrMsg "setStart") ∧
      setEndV2 1 [] "" [] none positionedState ⟨31, 3, 2, 0, "hi", "hi", false⟩ 2 =
        Except.error (checkNodeErrMsg "setEnd")) :=
  ⟨rfl, c9_checkNode_amended 1 [] "" [] none positionedState
    ⟨31, 3, 2, 0, "hi", "hi", false⟩ 0 2 rfl⟩

end RangeIE
